import Mathlib

/-!
Shallow embedding of the `power_market_simulator` repository (Python) in Lean 4.

Source files embedded here:
- `power_market_simulator/models/network.py` (data model)
- `power_market_simulator/models/time_series.py` (bid segments, time series, sample data)
- `power_market_simulator/algorithms/lmp_algorithm.py` (`LMPAlgorithm`)
- `power_market_simulator/algorithms/time_series_lmp.py` (`LMPAlgorithmWithSegments`)
- `power_market_simulator/algorithms/__init__.py` (`SpotMarketClearing`)

Modelling conventions:
- Python `float` values are modelled as `ℚ` (exact real arithmetic; IEEE rounding is
  not modelled).
- Python `dict` values are modelled as ordered association lists `List (String × α)`,
  with `dictLookup` returning the first binding and `dictStore` updating in place or
  appending (Python dicts preserve insertion order; keys are unique in the source).
- Python exceptions are modelled with `Except PyErr`; `ValueError`, `KeyError` and
  `IndexError` are distinguished constructors.
- The scipy `linprog` call is an external collaborator; its outcome is modelled by an
  opaque-to-the-algorithm parameter `LinprogOutcome` (success / non-success status /
  exception raised during formulation or solving).
-/

namespace MarketSim

/-- Python error values that the embedded code can raise. -/
inductive PyErr where
  | valueError : String → PyErr
  | keyError : String → PyErr
  | indexError : String → PyErr
deriving DecidableEq, Repr

/-! ### Ordered dictionaries (Python `dict` as association list) -/

/-- `d[k]` lookup: first binding of `k`, `none` when absent (Python would raise
`KeyError`; callers below turn `none` into `PyErr.keyError`). -/
def dictLookup {α : Type} : List (String × α) → String → Option α
  | [], _ => none
  | (k', v) :: t, k => if k' = k then some v else dictLookup t k

/-- `d[k] = v` assignment: update the existing binding in place (Python dicts keep
the original insertion position) or append a new binding at the end. -/
def dictStore {α : Type} : List (String × α) → String → α → List (String × α)
  | [], k, v => [(k, v)]
  | (k', v') :: t, k, v => if k' = k then (k, v) :: t else (k', v') :: dictStore t k v

/-- `d.keys()` in iteration order. -/
def dictKeys {α : Type} (m : List (String × α)) : List String := m.map Prod.fst

/-- `d.values()` in iteration order. -/
def dictValues {α : Type} (m : List (String × α)) : List α := m.map Prod.snd

/-- `k in d` membership test. -/
def dictContains {α : Type} (m : List (String × α)) (k : String) : Bool :=
  (dictLookup m k).isSome

/-! ### Data model (`models/network.py`) -/

/-- `GeneratorType` enum from `models/network.py`. -/
inductive GeneratorType where
  | thermal | hydro | wind | solar
deriving DecidableEq, Repr

/-- `Node` dataclass from `models/network.py`. -/
structure Node where
  id : String
  name : String
  base_voltage : ℚ := 220
  x : ℚ := 0
  y : ℚ := 0
deriving DecidableEq, Repr

/-- `Generator` dataclass from `models/network.py`. -/
structure Generator where
  id : String
  name : String
  node_id : String
  generator_type : GeneratorType
  min_power : ℚ
  max_power : ℚ
  marginal_cost : ℚ
  startup_cost : ℚ := 0
  shutdown_cost : ℚ := 0
  is_online : Bool := true
deriving DecidableEq, Repr

/-- `Load` dataclass from `models/network.py`. -/
structure Load where
  id : String
  name : String
  node_id : String
  demand : ℚ
  price_elasticity : ℚ := 0
deriving DecidableEq, Repr

/-- `TransmissionLine` dataclass from `models/network.py`. -/
structure TransmissionLine where
  id : String
  name : String
  from_node : String
  to_node : String
  reactance : ℚ
  thermal_limit : ℚ
  is_active : Bool := true
deriving DecidableEq, Repr

/-- `Network` dataclass from `models/network.py`: four insertion-ordered dictionaries
keyed by element id. -/
structure Network where
  name : String
  nodes : List (String × Node) := []
  generators : List (String × Generator) := []
  loads : List (String × Load) := []
  lines : List (String × TransmissionLine) := []

/-- `Network.get_loads_at_node`: all loads whose `node_id` equals the given node. -/
def Network.get_loads_at_node (net : Network) (node_id : String) : List Load :=
  (dictValues net.loads).filter (fun load => load.node_id = node_id)

/-- `Network.get_generators_at_node`: all generators whose `node_id` equals the node.
(`_calculate_simple_lmp` inlines the same filter over `generators.values()`.) -/
def Network.get_generators_at_node (net : Network) (node_id : String) : List Generator :=
  (dictValues net.generators).filter (fun gen => gen.node_id = node_id)

/-! ### Bid segments (`models/time_series.py`) -/

/-- `BidSegment` class from `models/time_series.py`. -/
structure BidSegment where
  start_power : ℚ
  end_power : ℚ
  price : ℚ
deriving DecidableEq, Repr

/-- `BidSegment.capacity`: `end_power - start_power`. -/
def BidSegment.capacity (s : BidSegment) : ℚ := s.end_power - s.start_power

/-- The `bid_segments` argument of `LMPAlgorithm`: dict generator id → segment list. -/
abbrev BidMap := List (String × List BidSegment)

/-- Node id → LMP price dictionary, the `lmp` dict of `_calculate_simple_lmp`. -/
abbrev PriceMap := List (String × ℚ)

namespace LMPAlgorithm

/-! ### Merit-order pricing engine (`LMPAlgorithm._calculate_simple_lmp`) -/

/-- The generators located at `node_id`:
`[gen for gen in self.network.generators.values() if gen.node_id == node_id]`. -/
def node_gens (net : Network) (node_id : String) : List Generator :=
  (dictValues net.generators).filter (fun gen => gen.node_id = node_id)

/-- The node's total local demand:
`sum(load.demand for load in node_loads)` over `get_loads_at_node`. -/
def total_demand (net : Network) (node_id : String) : ℚ :=
  ((net.get_loads_at_node node_id).map Load.demand).sum

/-- The local supply curve: per generator, one `(price, capacity)` pair per bid
segment when the generator has a non-empty segment list in `bids`, otherwise the
single pair `(marginal_cost, min(max_power, total_demand))`. Order: generator
iteration order, then segment order (Python `append`s). -/
def supply_curve (gens : List Generator) (bids : BidMap) (td : ℚ) : List (ℚ × ℚ) :=
  gens.flatMap (fun gen =>
    match dictLookup bids gen.id with
    | some segs =>
        if segs.isEmpty then [(gen.marginal_cost, min gen.max_power td)]
        else segs.map (fun seg => (seg.price, seg.capacity))
    | none => [(gen.marginal_cost, min gen.max_power td)])

/-- `supply_curve.sort(key=lambda x: x[0])`: Python's stable ascending sort by price;
`List.insertionSort` with `≤` on the first component is stable in the same sense. -/
def sorted_curve (curve : List (ℚ × ℚ)) : List (ℚ × ℚ) :=
  curve.insertionSort (fun a b => a.1 ≤ b.1)

/-- The accumulation loop
`for price, capacity in supply_curve: cumulative += capacity; if cumulative >= total_demand: marginal_price = price; break`.
Returns the final `cumulative_supply` together with `some price` when the loop
`break`s and `none` when it runs to completion. -/
def merit_loop : List (ℚ × ℚ) → ℚ → ℚ → ℚ × Option ℚ
  | [], cumulative, _ => (cumulative, none)
  | (price, capacity) :: rest, cumulative, td =>
      let cumulative' := cumulative + capacity
      if td ≤ cumulative' then (cumulative', some price)
      else merit_loop rest cumulative' td

/-- `max([x[0] for x in supply_curve])` for a non-empty curve (Python `max`);
the `[]` case is never consulted because every use is guarded by a non-emptiness
check in the source. -/
def max_curve_price : List (ℚ × ℚ) → ℚ
  | [] => 0
  | x :: t => t.foldl (fun acc y => max acc y.1) x.1

/-- The `supply_curve` list built for one node of the network: the generators at
the node, the bid map, and the node's total local demand fed to `supply_curve`. -/
def node_supply_curve (net : Network) (bids : BidMap) (node_id : String) : List (ℚ × ℚ) :=
  supply_curve (node_gens net node_id) bids (total_demand net node_id)

/-- The node's supply curve after the `sort(key=lambda x: x[0])` call. -/
def node_sorted_curve (net : Network) (bids : BidMap) (node_id : String) : List (ℚ × ℚ) :=
  sorted_curve (node_supply_curve net bids node_id)

/-- Price of one node in `LMPAlgorithm._calculate_simple_lmp`
(`lmp_algorithm.py` lines 245-298), before the congestion-adjustment pass:
no generators → 1000; otherwise run the merit-order loop over the sorted supply
curve; insufficient cumulative supply → max curve price + 500 (or 800 on an empty
curve); the `elif not supply_curve` branch yields 500; otherwise the loop's
marginal price (initialised 0.0). -/
def node_price_v1 (net : Network) (bids : BidMap) (node_id : String) : ℚ :=
  if (node_gens net node_id).isEmpty then 1000
  else
    let result := merit_loop (node_sorted_curve net bids node_id) 0 (total_demand net node_id)
    let marginal_price := result.2.getD 0
    if result.1 < total_demand net node_id then
      if (node_supply_curve net bids node_id).isEmpty then 800
      else max_curve_price (node_supply_curve net bids node_id) + 500
    else if (node_supply_curve net bids node_id).isEmpty then 500
    else marginal_price

/-- Price of one node in `LMPAlgorithmWithSegments._calculate_simple_lmp`
(`time_series_lmp.py` lines 164-215): textually identical to `node_price_v1`
except that the `elif not supply_curve: marginal_price = 500.0` branch is absent. -/
def node_price_v2 (net : Network) (bids : BidMap) (node_id : String) : ℚ :=
  if (node_gens net node_id).isEmpty then 1000
  else
    let result := merit_loop (node_sorted_curve net bids node_id) 0 (total_demand net node_id)
    let marginal_price := result.2.getD 0
    if result.1 < total_demand net node_id then
      if (node_supply_curve net bids node_id).isEmpty then 800
      else max_curve_price (node_supply_curve net bids node_id) + 500
    else marginal_price

/-- The per-node loop of `_calculate_simple_lmp` building the `lmp` dict:
`for node_id in self.network.nodes.keys(): ... lmp[node_id] = marginal_price`. -/
def base_lmp (price : String → ℚ) (node_ids : List String) : PriceMap :=
  node_ids.foldl (fun m node_id => dictStore m node_id (price node_id)) []

/-- `LMPAlgorithm._adjust_lmp_for_network_constraints`
(`lmp_algorithm.py` lines 306-329): for each active line read both endpoint prices
(`KeyError` when an endpoint id is not a key of `lmp`); when the absolute price
difference exceeds 10, set
`lmp[from] = max(lmp[from], from_lmp + congestion_cost/2)` and
`lmp[to] = max(lmp[to], to_lmp - congestion_cost/2)` with
`congestion_cost = price_diff * 0.1`. At the first assignment `lmp[from]` still
equals `from_lmp`; at the second, `lmp[to]` still equals `to_lmp` because the
branch requires `from_lmp ≠ to_lmp`, hence `from ≠ to`. -/
def adjust_lmp : List TransmissionLine → PriceMap → Except PyErr PriceMap
  | [], lmp => .ok lmp
  | line :: rest, lmp =>
      if line.is_active then
        match dictLookup lmp line.from_node, dictLookup lmp line.to_node with
        | some from_lmp, some to_lmp =>
            let price_diff := |from_lmp - to_lmp|
            if price_diff > 10 then
              let congestion_cost := price_diff * (1 / 10)
              let lmp₁ := dictStore lmp line.from_node
                (max from_lmp (from_lmp + congestion_cost / 2))
              let lmp₂ := dictStore lmp₁ line.to_node
                (max to_lmp (to_lmp - congestion_cost / 2))
              adjust_lmp rest lmp₂
            else adjust_lmp rest lmp
        | none, _ => .error (.keyError line.from_node)
        | some _, none => .error (.keyError line.to_node)
      else adjust_lmp rest lmp

/-- `LMPAlgorithm._calculate_simple_lmp` in full: build the per-node price dict
in node iteration order, then run the congestion-adjustment pass over
`self.network.lines.values()`. -/
def calculate_simple_lmp (net : Network) (bids : BidMap) : Except PyErr PriceMap :=
  adjust_lmp (dictValues net.lines) (base_lmp (node_price_v1 net bids) (dictKeys net.nodes))

/-- Outcome of the external `scipy.optimize.linprog` call attempted inside the
`try` block of `LMPAlgorithm.calculate_lmp`: the solver returned with
`result.success`, returned without success, or an exception was raised during
formulation or solving. The algorithm never reads anything else from the result. -/
inductive LinprogOutcome where
  | success | optFailure | exc
deriving DecidableEq, Repr

/-- `LMPAlgorithm._extract_lmp` (`lmp_algorithm.py` lines 223-237): ignores the
solver result entirely and returns `self._calculate_simple_lmp()`. -/
def extract_lmp (net : Network) (bids : BidMap) : Except PyErr PriceMap :=
  calculate_simple_lmp net bids

/-- `LMPAlgorithm.calculate_lmp` (`lmp_algorithm.py` lines 25-63): inside `try`,
solve the LP; on non-success return `_calculate_simple_lmp()`, on success return
`_extract_lmp(result)`; any exception in the `try` block (including one raised
while formulating, solving, or inside the simple path) is caught by the `except`
handler, which returns `_calculate_simple_lmp()`. -/
def calculate_lmp (net : Network) (bids : BidMap) (outcome : LinprogOutcome) :
    Except PyErr PriceMap :=
  let tryBlock : Except PyErr PriceMap :=
    match outcome with
    | .optFailure => calculate_simple_lmp net bids
    | .success => extract_lmp net bids
    | .exc => .error (.valueError "exception during formulation or solve")
  match tryBlock with
  | .ok lmp => .ok lmp
  | .error _ => calculate_simple_lmp net bids

end LMPAlgorithm

namespace LMPAlgorithmWithSegments

/-- `LMPAlgorithmWithSegments._calculate_simple_lmp` (`time_series_lmp.py` lines
158-221): same per-node dict construction with `node_price_v2` and the inherited
congestion-adjustment pass. -/
def calculate_simple_lmp (net : Network) (bids : BidMap) : Except PyErr PriceMap :=
  LMPAlgorithm.adjust_lmp (dictValues net.lines)
    (LMPAlgorithm.base_lmp (LMPAlgorithm.node_price_v2 net bids) (dictKeys net.nodes))

end LMPAlgorithmWithSegments

namespace SpotMarketClearing

/-- `SpotMarketClearing._validate_network` (`algorithms/__init__.py` lines 37-65):
raise `ValueError` when the node dict is empty, when the generator dict is empty,
at the first generator (in iteration order) whose `node_id` is not a node key, or
at the first such load; otherwise return normally. -/
def validate_network (net : Network) : Except PyErr Unit :=
  if net.nodes.isEmpty then
    .error (.valueError "No nodes defined in network")
  else if net.generators.isEmpty then
    .error (.valueError "No generators defined in network")
  else
    match (dictValues net.generators).find? (fun gen => !(dictContains net.nodes gen.node_id)) with
    | some gen =>
        .error (.valueError ("Generator " ++ gen.id ++ " connected to non-existent node " ++ gen.node_id))
    | none =>
        match (dictValues net.loads).find? (fun load => !(dictContains net.nodes load.node_id)) with
        | some load =>
            .error (.valueError ("Load " ++ load.id ++ " connected to non-existent node " ++ load.node_id))
        | none => .ok ()

/-- `SpotMarketClearing.run_clearing` (`algorithms/__init__.py` lines 23-35):
`self._validate_network()` first (its `ValueError` propagates), then
`run_clearing(self.network, self.bid_segments)`, which constructs `LMPAlgorithm`
and returns `calculate_lmp()`. -/
def run_clearing (net : Network) (bids : BidMap) (outcome : LMPAlgorithm.LinprogOutcome) :
    Except PyErr PriceMap :=
  match validate_network net with
  | .error e => .error e
  | .ok _ => LMPAlgorithm.calculate_lmp net bids outcome

end SpotMarketClearing

/-! ### Time series model (`models/time_series.py`) -/

/-- `TimeSlot` dataclass. -/
structure TimeSlot where
  hour : ℕ
  load_factor : ℚ := 1
  renewable_factor : ℚ := 1
deriving DecidableEq, Repr

/-- `GeneratorTimeSeries` dataclass. -/
structure GeneratorTimeSeries where
  generator_id : String
  time_slots : List TimeSlot
  bid_segments : List (List BidSegment)
  original_generator : Generator
deriving DecidableEq, Repr

/-- `GeneratorTimeSeries.get_available_capacity` (`time_series.py` lines 50-66):
`ValueError` outside 0-23; wind/solar return `max_power * renewable_factor` of the
hour's slot, other technologies return `max_power`. The Python `hour` is an `int`;
negative hours also raise, so `ℕ` with the upper-bound check covers the guarded
domain, and `time_slots[hour]` out-of-range indexing is `IndexError`. -/
def GeneratorTimeSeries.get_available_capacity (ts : GeneratorTimeSeries) (hour : ℕ) :
    Except PyErr ℚ :=
  if 24 ≤ hour then .error (.valueError "hour must be between 0 and 23")
  else
    match ts.time_slots.get? hour with
    | none => .error (.indexError "list index out of range")
    | some slot =>
        if ts.original_generator.generator_type = .wind ∨
            ts.original_generator.generator_type = .solar then
          .ok (ts.original_generator.max_power * slot.renewable_factor)
        else
          .ok ts.original_generator.max_power

/-- `GeneratorTimeSeries.get_bid_segments` (`time_series.py` lines 68-83):
`ValueError` outside 0-23; wind/solar return the single virtual segment
`BidSegment(0, get_available_capacity(hour), 0.0)`, other technologies return
`self.bid_segments[hour]`. -/
def GeneratorTimeSeries.get_bid_segments (ts : GeneratorTimeSeries) (hour : ℕ) :
    Except PyErr (List BidSegment) :=
  if 24 ≤ hour then .error (.valueError "hour must be between 0 and 23")
  else
    if ts.original_generator.generator_type = .wind ∨
        ts.original_generator.generator_type = .solar then
      match ts.get_available_capacity hour with
      | .error e => .error e
      | .ok capacity => .ok [⟨0, capacity, 0⟩]
    else
      match ts.bid_segments.get? hour with
      | none => .error (.indexError "list index out of range")
      | some segs => .ok segs

/-- `LoadTimeSeries` dataclass. -/
structure LoadTimeSeries where
  load_id : String
  time_slots : List TimeSlot
  original_load : Load
deriving DecidableEq, Repr

/-- `DayAheadMarketData` dataclass. -/
structure DayAheadMarketData where
  network : Network
  generator_time_series : List (String × GeneratorTimeSeries)
  load_time_series : List (String × LoadTimeSeries)

/-! ### Sample data generation (`create_sample_day_ahead_data`) -/

/-- The hour-dependent load factor of `create_sample_day_ahead_data`:
0.95 for hours 6-9, 1.0 for 17-21, 0.6 for 22-23 and 0-5, else 0.8. -/
def sample_load_factor (h : ℕ) : ℚ :=
  if 6 ≤ h ∧ h ≤ 9 then 95 / 100
  else if 17 ≤ h ∧ h ≤ 21 then 1
  else if 22 ≤ h ∨ h ≤ 5 then 6 / 10
  else 8 / 10

/-- The hour- and technology-dependent renewable output factor of
`create_sample_day_ahead_data`: wind 0.8 at night (hours 22-23, 0-5) else 0.4;
solar 0.1 outside hours 7-19 else `max(0.1, 0.2 + 0.7 * (1 - |h - 13| / 6))`;
other technologies 1.0. -/
def sample_renewable_factor (t : GeneratorType) (h : ℕ) : ℚ :=
  match t with
  | .wind => if 22 ≤ h ∨ h ≤ 5 then 8 / 10 else 4 / 10
  | .solar =>
      if h < 7 ∨ 19 < h then 1 / 10
      else max (1 / 10) (2 / 10 + (7 / 10) * (1 - |(h : ℚ) - 13| / 6))
  | _ => 1

/-- The 24 `TimeSlot`s built per generator by `create_sample_day_ahead_data`. -/
def sample_time_slots (t : GeneratorType) : List TimeSlot :=
  (List.range 24).map (fun h =>
    { hour := h, load_factor := sample_load_factor h, renewable_factor := sample_renewable_factor t h })

/-- The 24 per-hour bid segment lists built per generator by
`create_sample_day_ahead_data`: empty lists for wind/solar; for other
technologies three tranches `[0, 0.3*max_power]` at `marginal_cost`,
`[0.3*max_power, 0.7*max_power]` at `marginal_cost + 20` and
`[0.7*max_power, max_power]` at `marginal_cost + 50`, the same for every hour. -/
def sample_bid_segments (gen : Generator) : List (List BidSegment) :=
  (List.range 24).map (fun _ =>
    if gen.generator_type = .wind ∨ gen.generator_type = .solar then []
    else
      [⟨0, gen.max_power * (3 / 10), gen.marginal_cost⟩,
       ⟨gen.max_power * (3 / 10), gen.max_power * (7 / 10), gen.marginal_cost + 20⟩,
       ⟨gen.max_power * (7 / 10), gen.max_power, gen.marginal_cost + 50⟩])

/-- The `GeneratorTimeSeries` built for one generator by
`create_sample_day_ahead_data` (`time_series.py` lines 180-229). -/
def create_sample_gen_ts (gen_id : String) (gen : Generator) : GeneratorTimeSeries :=
  { generator_id := gen_id
    time_slots := sample_time_slots gen.generator_type
    bid_segments := sample_bid_segments gen
    original_generator := gen }

/-- The `LoadTimeSeries` built for one load by `create_sample_day_ahead_data`
(`time_series.py` lines 232-255); its slots use `renewable_factor = 1.0`. -/
def create_sample_load_ts (load_id : String) (load : Load) : LoadTimeSeries :=
  { load_id := load_id
    time_slots := (List.range 24).map (fun h =>
      { hour := h, load_factor := sample_load_factor h, renewable_factor := 1 })
    original_load := load }

/-- `create_sample_day_ahead_data` (`time_series.py` lines 174-261): one
`GeneratorTimeSeries` per generator and one `LoadTimeSeries` per load, keyed by
the original dict keys (which are unique in Python dicts). -/
def create_sample_day_ahead_data (net : Network) : DayAheadMarketData :=
  { network := net
    generator_time_series :=
      net.generators.map (fun p => (p.1, create_sample_gen_ts p.1 p.2))
    load_time_series :=
      net.loads.map (fun p => (p.1, create_sample_load_ts p.1 p.2)) }

/-- Decidable equality for `Except` results, used to evaluate the embedded
functions on concrete inputs. -/
instance instDecEqExcept {ε α : Type} [DecidableEq ε] [DecidableEq α] :
    DecidableEq (Except ε α)
  | .ok a, .ok b =>
      if h : a = b then isTrue (h ▸ rfl) else isFalse (fun hc => h (Except.ok.inj hc))
  | .ok _, .error _ => isFalse (fun hc => Except.noConfusion hc)
  | .error _, .ok _ => isFalse (fun hc => Except.noConfusion hc)
  | .error e, .error f =>
      if h : e = f then isTrue (h ▸ rfl) else isFalse (fun hc => h (Except.error.inj hc))

/-! ### Concrete inputs used to evaluate the embedded functions -/

/-- Two-bus network realising the spec's congestion scenario: merit-order prices
100 at `n1` and 50 at `n2`, one active line from `n1` (the higher-priced node)
to `n2`. -/
def congNet : Network :=
  ⟨"cong",
   [("n1", ⟨"n1", "Bus 1", 220, 0, 0⟩), ("n2", ⟨"n2", "Bus 2", 220, 0, 0⟩)],
   [("G1", ⟨"G1", "Gen 1", "n1", .thermal, 0, 200, 100, 0, 0, true⟩),
    ("G2", ⟨"G2", "Gen 2", "n2", .thermal, 0, 200, 50, 0, 0, true⟩)],
   [("L1", ⟨"L1", "Load 1", "n1", 10, 0⟩), ("L2", ⟨"L2", "Load 2", "n2", 10, 0⟩)],
   [("T12", ⟨"T12", "Line 1-2", "n1", "n2", 1 / 10, 100, true⟩)]⟩

/-- One-bus network with a generator and zero demand (no loads at all). -/
def zeroDemandNet : Network :=
  ⟨"zerodemand",
   [("n1", ⟨"n1", "Bus 1", 220, 0, 0⟩)],
   [("G1", ⟨"G1", "Gen 1", "n1", .thermal, 0, 100, 30, 0, 0, true⟩)], [], []⟩

/-- One-bus network whose only line references the nonexistent node `nX`;
structural validation accepts it because lines are never validated. -/
def danglingLineNet : Network :=
  ⟨"dangling",
   [("n1", ⟨"n1", "Bus 1", 220, 0, 0⟩)],
   [("G1", ⟨"G1", "Gen 1", "n1", .thermal, 0, 100, 30, 0, 0, true⟩)], [],
   [("T1", ⟨"T1", "Line 1-X", "n1", "nX", 1 / 10, 100, true⟩)]⟩

/-- One-bus network with one generator and one load, used as a clean valid input. -/
def simpleNet : Network :=
  ⟨"simple",
   [("n1", ⟨"n1", "Bus 1", 220, 0, 0⟩)],
   [("G1", ⟨"G1", "Gen 1", "n1", .thermal, 0, 100, 20, 0, 0, true⟩)],
   [("L1", ⟨"L1", "Load 1", "n1", 50, 0⟩)], []⟩

/-- A network with no nodes at all. -/
def emptyNet : Network := ⟨"empty", [], [], [], []⟩

/-- A solar generator with negative `max_power`: a degenerate but representable
`Generator` value. -/
def negSolarGen : Generator := ⟨"S1", "Solar 1", "n1", .solar, 0, -10, 0, 0, 0, true⟩

/-- A thermal generator used to evaluate the synthesized three-tranche bids. -/
def thermalGen : Generator := ⟨"TH1", "Thermal 1", "n1", .thermal, 0, 100, 40, 0, 0, true⟩

/-- A solar generator with positive capacity. -/
def solarGen : Generator := ⟨"S2", "Solar 2", "n1", .solar, 0, 50, 0, 0, 0, true⟩

/-- One-bus network containing `negSolarGen`. -/
def negSolarNet : Network :=
  ⟨"negsolar", [("n1", ⟨"n1", "Bus 1", 220, 0, 0⟩)], [("S1", negSolarGen)], [], []⟩

/-- One-bus network containing `thermalGen` and `solarGen`. -/
def sampleNet : Network :=
  ⟨"sample", [("n1", ⟨"n1", "Bus 1", 220, 0, 0⟩)],
   [("TH1", thermalGen), ("S2", solarGen)], [], []⟩

/-- Cumulative capacity of the first `n` tranches of a supply curve: the value of
`cumulative_supply` after the accumulation loop has consumed `n` tranches. Used to
state the merit-order characterisation of the loop. -/
def curve_cap (l : List (ℚ × ℚ)) (n : ℕ) : ℚ := ((l.take n).map Prod.snd).sum

end MarketSim

unseal Rat.inv Rat.mul Rat.add Rat.sub Rat.ofScientific

namespace MarketSim

/-! ### Dictionary lemmas -/

theorem dictLookup_store {α : Type} (m : List (String × α)) (k : String) (v : α)
    (k' : String) :
    dictLookup (dictStore m k v) k' = if k = k' then some v else dictLookup m k' := by
  induction m with
  | nil => simp [dictStore, dictLookup]
  | cons p t ih =>
    obtain ⟨pk, pv⟩ := p
    by_cases hpk : pk = k
    · subst hpk
      simp [dictStore, dictLookup]
      by_cases hk : pk = k' <;> simp [hk]
    · simp only [dictStore, if_neg hpk, dictLookup]
      by_cases hk : pk = k'
      · subst hk
        have : ¬ (k = pk) := fun h => hpk h.symm
        simp [this, dictLookup]
      · simp [hk, ih, dictLookup]

theorem mem_dictKeys_store {α : Type} (m : List (String × α)) (k : String) (v : α)
    (k' : String) :
    k' ∈ dictKeys (dictStore m k v) ↔ k' = k ∨ k' ∈ dictKeys m := by
  induction m with
  | nil => simp [dictStore, dictKeys]
  | cons p t ih =>
    obtain ⟨pk, pv⟩ := p
    simp only [dictKeys, List.map_cons, List.mem_cons] at ih ⊢
    by_cases hpk : pk = k
    · subst hpk
      simp [dictStore]
      try tauto
    · simp only [dictStore, if_neg hpk, List.map_cons, List.mem_cons]
      tauto

theorem dictContains_iff_mem_keys {α : Type} (m : List (String × α)) (k : String) :
    dictContains m k = true ↔ k ∈ dictKeys m := by
  induction m with
  | nil => simp [dictContains, dictLookup, dictKeys]
  | cons p t ih =>
    obtain ⟨pk, pv⟩ := p
    by_cases hk : pk = k
    · subst hk
      simp [dictContains, dictLookup, dictKeys]
    · simp only [dictContains, dictLookup, if_neg hk, dictKeys, List.map_cons,
        List.mem_cons] at *
      rw [ih]
      constructor
      · exact fun h => .inr h
      · rintro (h | h)
        · exact absurd h.symm hk
        · exact h

theorem dictLookup_isSome_iff_mem_keys {α : Type} (m : List (String × α)) (k : String) :
    (dictLookup m k).isSome = true ↔ k ∈ dictKeys m :=
  dictContains_iff_mem_keys m k


/-! ### Lemmas about the per-node price dictionary -/

theorem base_lmp_foldl_lookup (price : String → ℚ) (ids : List String)
    (acc : MarketSim.PriceMap) (k : String) :
    dictLookup (ids.foldl (fun m node_id => dictStore m node_id (price node_id)) acc) k =
      if k ∈ ids then some (price k) else dictLookup acc k := by
  induction ids generalizing acc with
  | nil => simp
  | cons i rest ih =>
    simp only [List.foldl_cons, List.mem_cons]
    rw [ih]
    by_cases hr : k ∈ rest
    · simp [hr]
    · rw [dictLookup_store]
      by_cases hik : i = k
      · subst hik
        simp [hr]
      · have : ¬ (k = i) := fun h => hik h.symm
        simp [hr, hik, this]

theorem dictLookup_base_lmp (price : String → ℚ) (ids : List String) (k : String) :
    dictLookup (LMPAlgorithm.base_lmp price ids) k =
      if k ∈ ids then some (price k) else none := by
  unfold LMPAlgorithm.base_lmp
  rw [base_lmp_foldl_lookup]
  rfl

theorem mem_dictKeys_base_lmp (price : String → ℚ) (ids : List String) (k : String) :
    k ∈ dictKeys (LMPAlgorithm.base_lmp price ids) ↔ k ∈ ids := by
  rw [← dictLookup_isSome_iff_mem_keys, dictLookup_base_lmp]
  by_cases h : k ∈ ids <;> simp [h]

/-! ### Lemmas about the congestion-adjustment pass -/

theorem adjust_step_le (m : MarketSim.PriceMap) (f t : String) (fv tv cc : ℚ)
    (hf : dictLookup m f = some fv) (ht : dictLookup m t = some tv)
    (k : String) (v : ℚ) (hv : dictLookup m k = some v) :
    ∃ w, dictLookup
        (dictStore (dictStore m f (max fv (fv + cc / 2))) t (max tv (tv - cc / 2))) k =
        some w ∧ v ≤ w := by
  rw [dictLookup_store, dictLookup_store]
  by_cases htk : t = k
  · subst htk
    have hveq : v = tv := Option.some.inj (hv.symm.trans ht)
    refine ⟨max tv (tv - cc / 2), by simp, ?_⟩
    rw [hveq]
    exact le_max_left _ _
  · rw [if_neg htk]
    by_cases hfk : f = k
    · subst hfk
      have hveq : v = fv := Option.some.inj (hv.symm.trans hf)
      refine ⟨max fv (fv + cc / 2), by simp, ?_⟩
      rw [hveq]
      exact le_max_left _ _
    · rw [if_neg hfk]
      exact ⟨v, hv, le_refl v⟩

theorem adjust_lmp_mono (lines : List TransmissionLine) :
    ∀ (m m' : MarketSim.PriceMap), LMPAlgorithm.adjust_lmp lines m = .ok m' →
      ∀ k v, dictLookup m k = some v → ∃ v', dictLookup m' k = some v' ∧ v ≤ v' := by
  induction lines with
  | nil =>
    intro m m' h k v hv
    rw [show m' = m from (Except.ok.inj h).symm]
    exact ⟨v, hv, le_refl v⟩
  | cons line rest ih =>
    intro m m' h k v hv
    unfold LMPAlgorithm.adjust_lmp at h
    by_cases hact : line.is_active
    · rw [if_pos hact] at h
      cases hfrom : dictLookup m line.from_node with
      | none => rw [hfrom] at h; exact absurd h (by simp)
      | some fv =>
        cases hto : dictLookup m line.to_node with
        | none => rw [hfrom, hto] at h; exact absurd h (by simp)
        | some tv =>
          rw [hfrom, hto] at h
          simp only at h
          by_cases hdiff : |fv - tv| > 10
          · rw [if_pos hdiff] at h
            obtain ⟨w, hw, hvw⟩ :=
              adjust_step_le m line.from_node line.to_node fv tv (|fv - tv| * (1 / 10))
                hfrom hto k v hv
            obtain ⟨w', hw', hww'⟩ := ih _ m' h k w hw
            exact ⟨w', hw', le_trans hvw hww'⟩
          · rw [if_neg hdiff] at h
            exact ih m m' h k v hv
    · rw [if_neg hact] at h
      exact ih m m' h k v hv

theorem adjust_lmp_ok (lines : List TransmissionLine) :
    ∀ (m : MarketSim.PriceMap),
      (∀ line ∈ lines, line.is_active = true →
        line.from_node ∈ dictKeys m ∧ line.to_node ∈ dictKeys m) →
      ∃ m', LMPAlgorithm.adjust_lmp lines m = .ok m' ∧
        (∀ k, k ∈ dictKeys m' ↔ k ∈ dictKeys m) := by
  induction lines with
  | nil => exact fun m _ => ⟨m, rfl, fun k => Iff.rfl⟩
  | cons line rest ih =>
    intro m hmem
    by_cases hact : line.is_active
    · obtain ⟨hfmem, htmem⟩ := hmem line (List.mem_cons_self _ _) hact
      obtain ⟨fv, hfrom⟩ :=
        Option.isSome_iff_exists.mp ((dictLookup_isSome_iff_mem_keys m _).mpr hfmem)
      obtain ⟨tv, hto⟩ :=
        Option.isSome_iff_exists.mp ((dictLookup_isSome_iff_mem_keys m _).mpr htmem)
      by_cases hdiff : |fv - tv| > 10
      · set cc := |fv - tv| * (1 / 10) with hcc
        set m2 := dictStore (dictStore m line.from_node (max fv (fv + cc / 2)))
          line.to_node (max tv (tv - cc / 2)) with hm2
        have hkeys2 : ∀ k, k ∈ dictKeys m2 ↔ k ∈ dictKeys m := by
          intro k
          rw [hm2, mem_dictKeys_store, mem_dictKeys_store]
          constructor
          · rintro (h | h | h)
            · exact h ▸ htmem
            · exact h ▸ hfmem
            · exact h
          · exact fun h => .inr (.inr h)
        obtain ⟨m', hm', hkeys'⟩ := ih m2 (by
          intro l hl ha
          obtain ⟨h1, h2⟩ := hmem l (List.mem_cons_of_mem _ hl) ha
          exact ⟨(hkeys2 _).mpr h1, (hkeys2 _).mpr h2⟩)
        refine ⟨m', ?_, fun k => (hkeys' k).trans (hkeys2 k)⟩
        unfold LMPAlgorithm.adjust_lmp
        rw [if_pos hact, hfrom, hto]
        simp only
        rw [if_pos hdiff]
        exact hm'
      · obtain ⟨m', hm', hkeys'⟩ := ih m (by
          intro l hl ha
          exact hmem l (List.mem_cons_of_mem _ hl) ha)
        refine ⟨m', ?_, hkeys'⟩
        unfold LMPAlgorithm.adjust_lmp
        rw [if_pos hact, hfrom, hto]
        simp only
        rw [if_neg hdiff]
        exact hm'
    · obtain ⟨m', hm', hkeys'⟩ := ih m (by
        intro l hl ha
        exact hmem l (List.mem_cons_of_mem _ hl) ha)
      refine ⟨m', ?_, hkeys'⟩
      unfold LMPAlgorithm.adjust_lmp
      rw [if_neg hact]
      exact hm'


/-! ### Characterisation of the accumulation loop -/

theorem curve_cap_cons (p c : ℚ) (t : List (ℚ × ℚ)) (n : ℕ) :
    curve_cap ((p, c) :: t) (n + 1) = c + curve_cap t n := by
  simp [curve_cap, List.take_succ_cons]

theorem merit_loop_no_cross (l : List (ℚ × ℚ)) :
    ∀ (cum td : ℚ), (∀ i, i < l.length → cum + curve_cap l (i + 1) < td) →
      LMPAlgorithm.merit_loop l cum td = (cum + curve_cap l l.length, none) := by
  induction l with
  | nil => intro cum td _; simp [LMPAlgorithm.merit_loop, curve_cap]
  | cons pc t ih =>
    obtain ⟨p, c⟩ := pc
    intro cum td h
    have h0 : cum + c < td := by
      have := h 0 (Nat.succ_pos _)
      rw [curve_cap_cons] at this
      simpa [curve_cap] using this
    simp only [LMPAlgorithm.merit_loop]
    rw [if_neg (not_le.mpr h0)]
    rw [ih (cum + c) td ?rest]
    · simp [List.length_cons, curve_cap_cons, add_assoc]
    case rest =>
      intro i hi
      have := h (i + 1) (by simpa using Nat.succ_lt_succ hi)
      rw [curve_cap_cons] at this
      linarith

theorem merit_loop_cross (l : List (ℚ × ℚ)) :
    ∀ (i : ℕ) (cum td : ℚ) (hi : i < l.length),
      td ≤ cum + curve_cap l (i + 1) →
      (∀ j, j < i → cum + curve_cap l (j + 1) < td) →
      LMPAlgorithm.merit_loop l cum td =
        (cum + curve_cap l (i + 1), some ((l.get ⟨i, hi⟩).1)) := by
  induction l with
  | nil => intro i cum td hi; exact absurd hi (by simp)
  | cons pc t ih =>
    obtain ⟨p, c⟩ := pc
    intro i cum td hi hcross hmin
    cases i with
    | zero =>
      have hcond : td ≤ cum + c := by
        rw [curve_cap_cons] at hcross
        simpa [curve_cap] using hcross
      simp only [LMPAlgorithm.merit_loop]
      rw [if_pos hcond]
      simp [curve_cap_cons, curve_cap]
    | succ ip =>
      have h0 : cum + c < td := by
        have := hmin 0 (Nat.succ_pos _)
        rw [curve_cap_cons] at this
        simpa [curve_cap] using this
      simp only [LMPAlgorithm.merit_loop]
      rw [if_neg (not_le.mpr h0)]
      have hip : ip < t.length := by simpa using Nat.lt_of_succ_lt_succ hi
      rw [ih ip (cum + c) td hip ?hc ?hm]
      · simp [curve_cap_cons, add_assoc]
      case hc =>
        rw [curve_cap_cons] at hcross
        linarith
      case hm =>
        intro j hj
        have := hmin (j + 1) (Nat.succ_lt_succ hj)
        rw [curve_cap_cons] at this
        linarith

/-! ### The supply curve of a node with generators is never empty -/

theorem supply_curve_ne_nil (gens : List Generator) (bids : MarketSim.BidMap) (td : ℚ)
    (h : gens ≠ []) : LMPAlgorithm.supply_curve gens bids td ≠ [] := by
  cases gens with
  | nil => exact absurd rfl h
  | cons g t =>
    intro hc
    simp only [LMPAlgorithm.supply_curve, List.flatMap_cons, List.append_eq_nil] at hc
    obtain ⟨h1, _⟩ := hc
    cases hb : dictLookup bids g.id with
    | none => rw [hb] at h1; simp at h1
    | some segs =>
      rw [hb] at h1
      cases segs with
      | nil => simp at h1
      | cons s st => simp at h1

/-! ### The two merit-order engines agree -/

theorem node_price_v1_eq_v2 (net : Network) (bids : MarketSim.BidMap) (node_id : String) :
    LMPAlgorithm.node_price_v1 net bids node_id =
      LMPAlgorithm.node_price_v2 net bids node_id := by
  simp only [LMPAlgorithm.node_price_v1, LMPAlgorithm.node_price_v2]
  by_cases hg : (LMPAlgorithm.node_gens net node_id).isEmpty
  · rw [if_pos hg, if_pos hg]
  · rw [if_neg hg, if_neg hg]
    have hgne : LMPAlgorithm.node_gens net node_id ≠ [] := by
      simpa [List.isEmpty_iff] using hg
    have hcne : LMPAlgorithm.node_supply_curve net bids node_id ≠ [] :=
      supply_curve_ne_nil (LMPAlgorithm.node_gens net node_id) bids
        (LMPAlgorithm.total_demand net node_id) hgne
    simp [hcne]

theorem simple_lmp_v1_eq_v2 (net : Network) (bids : MarketSim.BidMap) :
    LMPAlgorithm.calculate_simple_lmp net bids =
      LMPAlgorithmWithSegments.calculate_simple_lmp net bids := by
  unfold LMPAlgorithm.calculate_simple_lmp LMPAlgorithmWithSegments.calculate_simple_lmp
  have : LMPAlgorithm.node_price_v1 net bids = LMPAlgorithm.node_price_v2 net bids :=
    funext (node_price_v1_eq_v2 net bids)
  rw [this]

/-! ### The solver outcome never affects the returned prices -/

theorem calculate_lmp_eq_simple (net : Network) (bids : MarketSim.BidMap)
    (o : LMPAlgorithm.LinprogOutcome) :
    LMPAlgorithm.calculate_lmp net bids o = LMPAlgorithm.calculate_simple_lmp net bids := by
  cases o with
  | success =>
    simp only [LMPAlgorithm.calculate_lmp, LMPAlgorithm.extract_lmp]
    cases h : LMPAlgorithm.calculate_simple_lmp net bids <;> simp [h]
  | optFailure =>
    simp only [LMPAlgorithm.calculate_lmp]
    cases h : LMPAlgorithm.calculate_simple_lmp net bids <;> simp [h]
  | exc =>
    simp [LMPAlgorithm.calculate_lmp]

/-! ### Validation lemmas -/

theorem validate_network_ok_iff (net : Network) :
    SpotMarketClearing.validate_network net = .ok () ↔
      (net.nodes ≠ [] ∧ net.generators ≠ [] ∧
        (∀ gen ∈ dictValues net.generators, gen.node_id ∈ dictKeys net.nodes) ∧
        (∀ load ∈ dictValues net.loads, load.node_id ∈ dictKeys net.nodes)) := by
  unfold SpotMarketClearing.validate_network
  by_cases h1 : net.nodes.isEmpty
  · rw [if_pos h1]
    simp [List.isEmpty_iff.mp h1]
  · rw [if_neg h1]
    by_cases h2 : net.generators.isEmpty
    · rw [if_pos h2]
      simp [List.isEmpty_iff.mp h2]
    · rw [if_neg h2]
      have h1ne : net.nodes ≠ [] := by simpa [List.isEmpty_iff] using h1
      have h2ne : net.generators ≠ [] := by simpa [List.isEmpty_iff] using h2
      cases hg : (dictValues net.generators).find?
          (fun gen => !(dictContains net.nodes gen.node_id)) with
      | some gen =>
        simp only [hg]
        have hmem := List.mem_of_find?_eq_some hg
        have hpred := List.find?_some hg
        have hnot : gen.node_id ∉ dictKeys net.nodes := by
          rw [← dictContains_iff_mem_keys]
          simpa using hpred
        constructor
        · intro habs
          exact absurd habs (by simp)
        · rintro ⟨-, -, h3, -⟩
          exact absurd (h3 gen hmem) hnot
      | none =>
        simp only [hg]
        have hgen : ∀ gen ∈ dictValues net.generators, gen.node_id ∈ dictKeys net.nodes := by
          intro gen hmem
          have := List.find?_eq_none.mp hg gen hmem
          rw [← dictContains_iff_mem_keys]
          simpa using this
        cases hl : (dictValues net.loads).find?
            (fun load => !(dictContains net.nodes load.node_id)) with
        | some load =>
          simp only [hl]
          have hmem := List.mem_of_find?_eq_some hl
          have hpred := List.find?_some hl
          have hnot : load.node_id ∉ dictKeys net.nodes := by
            rw [← dictContains_iff_mem_keys]
            simpa using hpred
          constructor
          · intro habs
            exact absurd habs (by simp)
          · rintro ⟨-, -, -, h4⟩
            exact absurd (h4 load hmem) hnot
        | none =>
          simp only [hl]
          have hload : ∀ load ∈ dictValues net.loads, load.node_id ∈ dictKeys net.nodes := by
            intro load hmem
            have := List.find?_eq_none.mp hl load hmem
            rw [← dictContains_iff_mem_keys]
            simpa using this
          constructor
          · intro _
            exact ⟨h1ne, h2ne, hgen, hload⟩
          · intro _
            trivial

theorem validate_network_error_shape (net : Network) (e : PyErr)
    (h : SpotMarketClearing.validate_network net = .error e) :
    ∃ msg, e = .valueError msg := by
  unfold SpotMarketClearing.validate_network at h
  split at h
  · exact ⟨_, (Except.error.inj h).symm⟩
  · split at h
    · exact ⟨_, (Except.error.inj h).symm⟩
    · split at h
      · exact ⟨_, (Except.error.inj h).symm⟩
      · split at h
        · exact ⟨_, (Except.error.inj h).symm⟩
        · exact absurd h (by simp)


/-! ### The pre-adjustment price of a node with generators -/

theorem node_price_v1_cross (net : Network) (bids : MarketSim.BidMap) (node_id : String)
    (hg : LMPAlgorithm.node_gens net node_id ≠ []) (i : ℕ)
    (hi : i < (LMPAlgorithm.node_sorted_curve net bids node_id).length)
    (hcross : LMPAlgorithm.total_demand net node_id ≤
      curve_cap (LMPAlgorithm.node_sorted_curve net bids node_id) (i + 1))
    (hmin : ∀ j, j < i →
      curve_cap (LMPAlgorithm.node_sorted_curve net bids node_id) (j + 1) <
        LMPAlgorithm.total_demand net node_id) :
    LMPAlgorithm.node_price_v1 net bids node_id =
      ((LMPAlgorithm.node_sorted_curve net bids node_id).get ⟨i, hi⟩).1 := by
  have hgb : (LMPAlgorithm.node_gens net node_id).isEmpty = false := by
    simpa [List.isEmpty_iff] using hg
  have hcne : LMPAlgorithm.node_supply_curve net bids node_id ≠ [] :=
    supply_curve_ne_nil _ _ _ hg
  have hloop := merit_loop_cross (LMPAlgorithm.node_sorted_curve net bids node_id) i 0
    (LMPAlgorithm.total_demand net node_id) hi (by simpa using hcross)
    (fun j hj => by simpa using hmin j hj)
  unfold LMPAlgorithm.node_price_v1
  rw [if_neg (by simp [hgb])]
  simp only [hloop, zero_add]
  rw [if_neg (not_lt.mpr hcross),
    if_neg (fun h => hcne (List.isEmpty_iff.mp h))]
  rfl

theorem node_price_v1_no_cross (net : Network) (bids : MarketSim.BidMap) (node_id : String)
    (hg : LMPAlgorithm.node_gens net node_id ≠ [])
    (hno : ∀ i, i < (LMPAlgorithm.node_sorted_curve net bids node_id).length →
      curve_cap (LMPAlgorithm.node_sorted_curve net bids node_id) (i + 1) <
        LMPAlgorithm.total_demand net node_id) :
    LMPAlgorithm.node_price_v1 net bids node_id =
      LMPAlgorithm.max_curve_price (LMPAlgorithm.node_supply_curve net bids node_id) + 500 := by
  have hgb : (LMPAlgorithm.node_gens net node_id).isEmpty = false := by
    simpa [List.isEmpty_iff] using hg
  have hcne : LMPAlgorithm.node_supply_curve net bids node_id ≠ [] :=
    supply_curve_ne_nil _ _ _ hg
  have hloop := merit_loop_no_cross (LMPAlgorithm.node_sorted_curve net bids node_id) 0
    (LMPAlgorithm.total_demand net node_id) (fun i hi => by simpa using hno i hi)
  have hlenpos : 0 < (LMPAlgorithm.node_sorted_curve net bids node_id).length := by
    rw [LMPAlgorithm.node_sorted_curve, LMPAlgorithm.sorted_curve, List.length_insertionSort]
    exact List.length_pos.mpr hcne
  have hlt : curve_cap (LMPAlgorithm.node_sorted_curve net bids node_id)
      ((LMPAlgorithm.node_sorted_curve net bids node_id).length) <
      LMPAlgorithm.total_demand net node_id := by
    obtain ⟨k, hk⟩ := Nat.exists_eq_succ_of_ne_zero (Nat.pos_iff_ne_zero.mp hlenpos)
    rw [hk]
    exact hno k (by omega)
  unfold LMPAlgorithm.node_price_v1
  rw [if_neg (by simp [hgb])]
  simp only [hloop, zero_add]
  rw [if_pos hlt, if_neg (fun h => hcne (List.isEmpty_iff.mp h))]


/-! ### Sample time-series lemmas -/

theorem dictLookup_map_pair {α β : Type} (l : List (String × α)) (f : String → α → β)
    (k : String) (b : β) (h : dictLookup (l.map (fun p => (p.1, f p.1 p.2))) k = some b) :
    ∃ a, dictLookup l k = some a ∧ b = f k a := by
  induction l with
  | nil => exact absurd h (by simp [dictLookup])
  | cons p t ih =>
    obtain ⟨pk, pv⟩ := p
    simp only [List.map_cons, dictLookup] at h ⊢
    by_cases hk : pk = k
    · subst hk
      rw [if_pos rfl] at h ⊢
      exact ⟨pv, rfl, (Option.some.inj h).symm⟩
    · rw [if_neg hk] at h ⊢
      exact ih h

theorem lookup_sample_gen_ts (net : Network) (gen_id : String) (ts : GeneratorTimeSeries)
    (h : dictLookup (create_sample_day_ahead_data net).generator_time_series gen_id = some ts) :
    ∃ gen, dictLookup net.generators gen_id = some gen ∧
      ts = create_sample_gen_ts gen_id gen := by
  exact dictLookup_map_pair net.generators create_sample_gen_ts gen_id ts h

theorem sample_time_slots_get (t : GeneratorType) (h : ℕ) (hh : h < 24) :
    (sample_time_slots t).get? h =
      some ⟨h, sample_load_factor h, sample_renewable_factor t h⟩ := by
  unfold sample_time_slots
  rw [List.get?_eq_getElem?, List.getElem?_map, List.getElem?_range hh]
  rfl

theorem sample_bid_segments_get (gen : Generator) (h : ℕ) (hh : h < 24) :
    (sample_bid_segments gen).get? h = some
      (if gen.generator_type = .wind ∨ gen.generator_type = .solar then []
       else
        [⟨0, gen.max_power * (3 / 10), gen.marginal_cost⟩,
         ⟨gen.max_power * (3 / 10), gen.max_power * (7 / 10), gen.marginal_cost + 20⟩,
         ⟨gen.max_power * (7 / 10), gen.max_power, gen.marginal_cost + 50⟩]) := by
  unfold sample_bid_segments
  rw [List.get?_eq_getElem?, List.getElem?_map, List.getElem?_range hh]
  rfl

theorem sample_renewable_factor_le_one (t : GeneratorType) (h : ℕ) (hh : h < 24) :
    sample_renewable_factor t h ≤ 1 := by
  cases t <;> (revert h; decide)

theorem get_available_capacity_sample (gen_id : String) (gen : Generator) (hour : ℕ)
    (hh : hour < 24)
    (htype : gen.generator_type = .wind ∨ gen.generator_type = .solar) :
    (create_sample_gen_ts gen_id gen).get_available_capacity hour =
      .ok (gen.max_power * sample_renewable_factor gen.generator_type hour) := by
  unfold GeneratorTimeSeries.get_available_capacity
  rw [if_neg (by omega)]
  have hslots : (create_sample_gen_ts gen_id gen).time_slots =
      sample_time_slots gen.generator_type := rfl
  rw [hslots, sample_time_slots_get _ _ hh]
  simp only
  rw [if_pos (by exact htype)]
  rfl


/-! ### Claim theorems -/

/-- C1: for every network and optional bid-segment map and every node with at
least one generator, the pre-adjustment merit-order price is the price of the
first tranche of the price-sorted supply curve at which cumulative tranche
capacity meets or exceeds the node's total local demand (first conjunct: if `i`
is the least index whose cumulative capacity reaches demand, the price is the
`i`-th sorted tranche's price); and if cumulative capacity stays below total
demand over the whole curve, the price is the maximum tranche price plus 500
(second conjunct). -/
theorem merit_order_price_characterisation (net : Network) (bids : BidMap)
    (node_id : String) (hg : LMPAlgorithm.node_gens net node_id ≠ []) :
    (∀ (i : ℕ) (hi : i < (LMPAlgorithm.node_sorted_curve net bids node_id).length),
      LMPAlgorithm.total_demand net node_id ≤
        curve_cap (LMPAlgorithm.node_sorted_curve net bids node_id) (i + 1) →
      (∀ j, j < i → curve_cap (LMPAlgorithm.node_sorted_curve net bids node_id) (j + 1) <
        LMPAlgorithm.total_demand net node_id) →
      LMPAlgorithm.node_price_v1 net bids node_id =
        ((LMPAlgorithm.node_sorted_curve net bids node_id).get ⟨i, hi⟩).1) ∧
    ((∀ i, i < (LMPAlgorithm.node_sorted_curve net bids node_id).length →
        curve_cap (LMPAlgorithm.node_sorted_curve net bids node_id) (i + 1) <
          LMPAlgorithm.total_demand net node_id) →
      LMPAlgorithm.node_price_v1 net bids node_id =
        LMPAlgorithm.max_curve_price (LMPAlgorithm.node_supply_curve net bids node_id) + 500) :=
  ⟨fun i hi hcross hmin => node_price_v1_cross net bids node_id hg i hi hcross hmin,
   fun hno => node_price_v1_no_cross net bids node_id hg hno⟩

/-- Witness for C1: on `simpleNet` (one node `n1`, one generator at marginal cost
20 with `max_power` 100, one load of 50) the sorted supply curve is `[(20, 50)]`,
the first tranche already covers the demand of 50, and the theorem yields the
price 20. -/
theorem merit_order_price_characterisation_witness :
    LMPAlgorithm.node_price_v1 simpleNet [] "n1" = 20 := by
  have h := (merit_order_price_characterisation simpleNet [] "n1" (by decide)).1 0
    (by decide) (by decide) (fun j hj => absurd hj (Nat.not_lt_zero j))
  exact h.trans (by decide)

/-- C2: the price map returned by `LMPAlgorithm.calculate_lmp` is always the
output of the merit-order engine `_calculate_simple_lmp`, whether the LP solver
succeeds, reports failure, or an exception is raised. -/
theorem calculate_lmp_solver_independent :
    ∀ (net : Network) (bids : BidMap) (o : LMPAlgorithm.LinprogOutcome),
      LMPAlgorithm.calculate_lmp net bids o = LMPAlgorithm.calculate_simple_lmp net bids :=
  calculate_lmp_eq_simple

/-- Counterexample for C3: on `danglingLineNet`, whose only (active) transmission
line references the nonexistent node `nX`, `run_clearing` neither returns a price
map nor raises the structural validation error: it raises a `KeyError`, because
`_validate_network` never inspects lines while `_adjust_lmp_for_network_constraints`
subscripts the price dict with both line endpoints. -/
theorem run_clearing_dangling_line_counterexample :
    ¬ ((∃ m, SpotMarketClearing.run_clearing danglingLineNet [] .success = .ok m ∧
          ∀ k, k ∈ dictKeys m ↔ k ∈ dictKeys danglingLineNet.nodes) ∨
        (∃ msg, SpotMarketClearing.run_clearing danglingLineNet [] .success =
          .error (.valueError msg))) := by
  have hres : SpotMarketClearing.run_clearing danglingLineNet [] .success =
      .error (.keyError "nX") := by decide
  rintro (⟨m, hm, -⟩ | ⟨msg, hmsg⟩)
  · rw [hres] at hm
    exact Except.noConfusion hm
  · rw [hres] at hmsg
    exact PyErr.noConfusion (Except.error.inj hmsg)

/-- C3 amended: for every network all of whose active transmission lines
reference existing nodes (the condition the original claim wrongly dropped),
`run_clearing` either returns a price map whose key set is exactly the node ids
or raises the structural validation error, and the solver outcome never changes
this; a line endpoint absent from the node set can instead surface a `KeyError`,
as the counterexample shows. -/
theorem run_clearing_complete_or_validation_error (net : Network) (bids : BidMap)
    (o : LMPAlgorithm.LinprogOutcome)
    (hlines : ∀ line ∈ dictValues net.lines, line.is_active = true →
      line.from_node ∈ dictKeys net.nodes ∧ line.to_node ∈ dictKeys net.nodes) :
    (∃ m, SpotMarketClearing.run_clearing net bids o = .ok m ∧
      ∀ k, k ∈ dictKeys m ↔ k ∈ dictKeys net.nodes) ∨
    (∃ msg, SpotMarketClearing.run_clearing net bids o = .error (.valueError msg)) := by
  cases hv : SpotMarketClearing.validate_network net with
  | error e =>
    obtain ⟨msg, rfl⟩ := validate_network_error_shape net e hv
    refine .inr ⟨msg, ?_⟩
    unfold SpotMarketClearing.run_clearing
    rw [hv]
  | ok u =>
    cases u
    have hrun : SpotMarketClearing.run_clearing net bids o =
        LMPAlgorithm.calculate_simple_lmp net bids := by
      unfold SpotMarketClearing.run_clearing
      rw [hv]
      exact calculate_lmp_eq_simple net bids o
    have hbase : ∀ k, k ∈ dictKeys (LMPAlgorithm.base_lmp
        (LMPAlgorithm.node_price_v1 net bids) (dictKeys net.nodes)) ↔
        k ∈ dictKeys net.nodes :=
      fun k => mem_dictKeys_base_lmp _ _ k
    obtain ⟨m', hm', hkeys⟩ := adjust_lmp_ok (dictValues net.lines)
      (LMPAlgorithm.base_lmp (LMPAlgorithm.node_price_v1 net bids) (dictKeys net.nodes)) (by
        intro line hl ha
        obtain ⟨h1, h2⟩ := hlines line hl ha
        exact ⟨(hbase _).mpr h1, (hbase _).mpr h2⟩)
    refine .inl ⟨m', ?_, fun k => (hkeys k).trans (hbase k)⟩
    rw [hrun]
    exact hm'

/-- Witness for C3 amended: on `congNet` (two nodes, one active line between
them, both endpoints existing) the clearing call returns a complete price map. -/
theorem run_clearing_complete_or_validation_error_witness :
    (∃ m, SpotMarketClearing.run_clearing congNet [] .success = .ok m ∧
      ∀ k, k ∈ dictKeys m ↔ k ∈ dictKeys congNet.nodes) ∨
    (∃ msg, SpotMarketClearing.run_clearing congNet [] .success =
      .error (.valueError msg)) :=
  run_clearing_complete_or_validation_error congNet [] .success (by decide)

/-- C4: `_validate_network` succeeds exactly when the node dict is non-empty, the
generator dict is non-empty, and every generator and load references an existing
node (first conjunct); a validation call either succeeds or raises (second
conjunct); and when it raises, the error is a `ValueError` and `run_clearing`
surfaces exactly that error before any pricing computation, for every bid map and
solver outcome (third conjunct). -/
theorem validate_network_characterisation (net : Network) :
    (SpotMarketClearing.validate_network net = .ok () ↔
      (net.nodes ≠ [] ∧ net.generators ≠ [] ∧
        (∀ gen ∈ dictValues net.generators, gen.node_id ∈ dictKeys net.nodes) ∧
        (∀ load ∈ dictValues net.loads, load.node_id ∈ dictKeys net.nodes))) ∧
    (SpotMarketClearing.validate_network net = .ok () ∨
      ∃ e, SpotMarketClearing.validate_network net = .error e) ∧
    (∀ e, SpotMarketClearing.validate_network net = .error e →
      (∃ msg, e = .valueError msg) ∧
      ∀ (bids : BidMap) (o : LMPAlgorithm.LinprogOutcome),
        SpotMarketClearing.run_clearing net bids o = .error e) := by
  refine ⟨validate_network_ok_iff net, ?_, ?_⟩
  · cases hv : SpotMarketClearing.validate_network net with
    | ok u => cases u; exact .inl rfl
    | error e => exact .inr ⟨e, rfl⟩
  · intro e he
    refine ⟨validate_network_error_shape net e he, ?_⟩
    intro bids o
    unfold SpotMarketClearing.run_clearing
    rw [he]

/-- Witness for C4: the empty network fails validation with the no-nodes
`ValueError`, and `run_clearing` surfaces exactly that error. -/
theorem validate_network_characterisation_witness :
    SpotMarketClearing.run_clearing emptyNet [] .success =
      .error (.valueError "No nodes defined in network") :=
  ((validate_network_characterisation emptyNet).2.2
    (.valueError "No nodes defined in network") (by decide)).2 [] .success


/-- Counterexample for C5: on `congNet` the pre-adjustment merit-order prices are
100 at `n1` (the line's from-endpoint) and 50 at `n2`, the price difference is 50
and the congestion cost is 5, but the adjuster returns 102.5 and 50, not the
claimed 97.5 and 52.5: the `max(...)` guard discards the downward half of the
adjustment, and both `max` calls are centred on the endpoint's own price, so the
from-endpoint is raised by 2.5 and the to-endpoint is left unchanged. -/
theorem congestion_adjustment_counterexample :
    LMPAlgorithm.base_lmp (LMPAlgorithm.node_price_v1 congNet []) (dictKeys congNet.nodes) =
      [("n1", 100), ("n2", 50)] ∧
    LMPAlgorithm.calculate_simple_lmp congNet [] = .ok [("n1", 205 / 2), ("n2", 50)] ∧
    (205 / 2 : ℚ) ≠ 195 / 2 ∧ (50 : ℚ) ≠ 105 / 2 :=
  ⟨by decide, by decide, by norm_num, by norm_num⟩

/-- C5 amended: for one active line whose endpoint prices differ by more than the
threshold 10, the adjuster raises the from-endpoint's price by
`congestion_cost / 2` (with `congestion_cost = |price difference| × 0.1`) and
leaves the to-endpoint's price unchanged, because each `max` guard keeps the
larger of the endpoint's current price and its adjusted price; in the claimed
scenario (prices 100 and 50, one active line) this yields 102.5 and 50. -/
theorem congestion_adjustment_raises_from_keeps_to (m : PriceMap)
    (line : TransmissionLine) (fv tv : ℚ) (hact : line.is_active = true)
    (hne : line.from_node ≠ line.to_node)
    (hf : dictLookup m line.from_node = some fv)
    (ht : dictLookup m line.to_node = some tv)
    (hdiff : |fv - tv| > 10) :
    ∃ m', LMPAlgorithm.adjust_lmp [line] m = .ok m' ∧
      dictLookup m' line.from_node = some (fv + |fv - tv| * (1 / 10) / 2) ∧
      dictLookup m' line.to_node = some tv := by
  have hccnn : (0 : ℚ) ≤ |fv - tv| * (1 / 10) := mul_nonneg (abs_nonneg _) (by norm_num)
  refine ⟨dictStore (dictStore m line.from_node
      (max fv (fv + |fv - tv| * (1 / 10) / 2))) line.to_node
      (max tv (tv - |fv - tv| * (1 / 10) / 2)), ?_, ?_, ?_⟩
  · unfold LMPAlgorithm.adjust_lmp
    rw [if_pos hact, hf, ht]
    simp only
    rw [if_pos hdiff]
    rfl
  · rw [dictLookup_store, if_neg (fun h => hne h.symm), dictLookup_store, if_pos rfl]
    have : max fv (fv + |fv - tv| * (1 / 10) / 2) = fv + |fv - tv| * (1 / 10) / 2 :=
      max_eq_right (by linarith)
    rw [this]
  · rw [dictLookup_store, if_pos rfl]
    have : max tv (tv - |fv - tv| * (1 / 10) / 2) = tv := max_eq_left (by linarith)
    rw [this]

/-- Witness for C5 amended: the claimed scenario itself — from-endpoint price
100, to-endpoint price 50, one active line — where the adjusted prices are
`100 + |100 − 50| × 0.1 / 2 = 102.5` and `50`. -/
theorem congestion_adjustment_raises_from_keeps_to_witness :
    ∃ m', LMPAlgorithm.adjust_lmp [⟨"T12", "Line 1-2", "n1", "n2", 1 / 10, 100, true⟩]
        [("n1", 100), ("n2", 50)] = .ok m' ∧
      dictLookup m' "n1" = some ((100 : ℚ) + |(100 : ℚ) - 50| * (1 / 10) / 2) ∧
      dictLookup m' "n2" = some (50 : ℚ) :=
  congestion_adjustment_raises_from_keeps_to [("n1", 100), ("n2", 50)]
    ⟨"T12", "Line 1-2", "n1", "n2", 1 / 10, 100, true⟩ 100 50 rfl (by decide)
    (by decide) (by decide) (by decide)

/-- C6: the congestion-adjustment pass never decreases a price: whenever
`_adjust_lmp_for_network_constraints` completes on any price map, every key's
final price is at least its previous price (first conjunct; the induction over
the line list covers every intermediate per-line state), and consequently every
price returned by `_calculate_simple_lmp` is at least the node's pre-adjustment
merit-order price (second conjunct). -/
theorem adjust_never_decreases_prices :
    (∀ (lines : List TransmissionLine) (m m' : PriceMap),
      LMPAlgorithm.adjust_lmp lines m = .ok m' →
      ∀ k v, dictLookup m k = some v → ∃ v', dictLookup m' k = some v' ∧ v ≤ v') ∧
    (∀ (net : Network) (bids : BidMap) (m' : PriceMap),
      LMPAlgorithm.calculate_simple_lmp net bids = .ok m' →
      ∀ k v, dictLookup (LMPAlgorithm.base_lmp (LMPAlgorithm.node_price_v1 net bids)
        (dictKeys net.nodes)) k = some v →
      ∃ v', dictLookup m' k = some v' ∧ v ≤ v') := by
  refine ⟨adjust_lmp_mono, ?_⟩
  intro net bids m' h k v hv
  unfold LMPAlgorithm.calculate_simple_lmp at h
  exact adjust_lmp_mono (dictValues net.lines) _ m' h k v hv

/-- Witness for C6: one active line over the price map `{a ↦ 1, b ↦ 100}`; the
adjusted price of `a` is 5.95 ≥ 1. -/
theorem adjust_never_decreases_prices_witness :
    ∃ v', dictLookup [("a", (119 / 20 : ℚ)), ("b", 100)] "a" = some v' ∧ (1 : ℚ) ≤ v' :=
  adjust_never_decreases_prices.1
    [⟨"Lab", "Line a-b", "a", "b", 1 / 10, 100, true⟩]
    [("a", 1), ("b", 100)] [("a", 119 / 20), ("b", 100)] (by decide) "a" 1 (by decide)

/-- Counterexample for C7: on `zeroDemandNet` (one node, one generator at
marginal cost 30, zero total demand) the pre-adjustment price is 30, the cheapest
tranche price, not the claimed 500: with zero demand the supply curve `[(30, 0)]`
is not empty, and the very first tranche already satisfies
`cumulative ≥ demand`, so the 500 branch is unreachable. -/
theorem zero_demand_price_counterexample :
    LMPAlgorithm.node_price_v1 zeroDemandNet [] "n1" = 30 ∧ (30 : ℚ) ≠ 500 :=
  ⟨by decide, by norm_num⟩

/-- C7 amended: for a node with at least one generator and zero total demand the
supply curve is non-empty (one tranche per generator, so the claimed "empty
curve" situation cannot arise and the 500 branch is dead), and — provided the
first sorted tranche's capacity is not negative, which holds whenever generator
capacities and segment widths are non-negative — the pre-adjustment price is the
first (minimum) sorted tranche price. -/
theorem zero_demand_price_is_first_tranche (net : Network) (bids : BidMap)
    (node_id : String) (hg : LMPAlgorithm.node_gens net node_id ≠ [])
    (hd : LMPAlgorithm.total_demand net node_id = 0)
    (hcap : 0 ≤ ((LMPAlgorithm.node_sorted_curve net bids node_id).headI).2) :
    LMPAlgorithm.node_sorted_curve net bids node_id ≠ [] ∧
    LMPAlgorithm.node_price_v1 net bids node_id =
      ((LMPAlgorithm.node_sorted_curve net bids node_id).headI).1 := by
  have hcne : LMPAlgorithm.node_supply_curve net bids node_id ≠ [] :=
    supply_curve_ne_nil _ _ _ hg
  have hsne : LMPAlgorithm.node_sorted_curve net bids node_id ≠ [] := by
    have hlen : (LMPAlgorithm.node_sorted_curve net bids node_id).length =
        (LMPAlgorithm.node_supply_curve net bids node_id).length := by
      rw [LMPAlgorithm.node_sorted_curve, LMPAlgorithm.sorted_curve,
        List.length_insertionSort]
    intro hnil
    rw [hnil] at hlen
    exact hcne (List.length_eq_zero.mp hlen.symm)
  refine ⟨hsne, ?_⟩
  obtain ⟨⟨p, cap⟩, tl, hs⟩ := List.exists_cons_of_ne_nil hsne
  have hi : 0 < (LMPAlgorithm.node_sorted_curve net bids node_id).length := by
    rw [hs]; simp
  have hcap' : 0 ≤ cap := by rw [hs] at hcap; simpa using hcap
  have hcross : LMPAlgorithm.total_demand net node_id ≤
      curve_cap (LMPAlgorithm.node_sorted_curve net bids node_id) 1 := by
    rw [hd, hs, curve_cap_cons]
    simpa [curve_cap] using hcap'
  have key := node_price_v1_cross net bids node_id hg 0 hi hcross
    (fun j hj => absurd hj (Nat.not_lt_zero j))
  rw [key]
  clear key hcross
  revert hi
  rw [hs]
  intro hi
  rfl

/-- Witness for C7 amended: on `zeroDemandNet` the sorted curve is `[(30, 0)]`
and the theorem yields the price 30, the head tranche's price. -/
theorem zero_demand_price_is_first_tranche_witness :
    LMPAlgorithm.node_sorted_curve zeroDemandNet [] "n1" ≠ [] ∧
    LMPAlgorithm.node_price_v1 zeroDemandNet [] "n1" =
      ((LMPAlgorithm.node_sorted_curve zeroDemandNet [] "n1").headI).1 :=
  zero_demand_price_is_first_tranche zeroDemandNet [] "n1" (by decide) (by decide)
    (by decide)


/-- Counterexample for C8: for the solar generator `negSolarGen` with
`max_power = -10`, a representable `Generator` value, the hour-13 available
capacity produced by `create_sample_day_ahead_data` is `-10 × 0.9 = -9`, which
exceeds the base `max_power` of `-10`: the "never exceeds max_power" half of the
claim fails without a non-negativity assumption on `max_power`. -/
theorem renewable_capacity_bound_counterexample :
    negSolarGen.generator_type = .solar ∧ negSolarGen.max_power = -10 ∧
    (dictLookup (create_sample_day_ahead_data negSolarNet).generator_time_series "S1").map
      (fun ts => ts.get_available_capacity 13) = some (.ok (-9)) ∧
    ¬ ((-9 : ℚ) ≤ -10) :=
  ⟨rfl, by decide, by decide, by norm_num⟩

/-- C8 amended: for every wind or solar generator in a `DayAheadMarketData`
produced by `create_sample_day_ahead_data` and every hour 0–23,
`get_available_capacity` equals `max_power × renewable_factor(hour)` (first
conjunct, unconditional), and this derived capacity does not exceed the base
`max_power` provided `max_power` is non-negative (second conjunct; the
counterexample shows the bound fails for a negative `max_power`). -/
theorem renewable_capacity_formula_and_bound (net : Network) (gen_id : String)
    (ts : GeneratorTimeSeries)
    (hts : dictLookup (create_sample_day_ahead_data net).generator_time_series gen_id =
      some ts)
    (htype : ts.original_generator.generator_type = .wind ∨
      ts.original_generator.generator_type = .solar)
    (hour : ℕ) (hh : hour < 24) :
    ts.get_available_capacity hour =
      .ok (ts.original_generator.max_power *
        sample_renewable_factor ts.original_generator.generator_type hour) ∧
    (0 ≤ ts.original_generator.max_power →
      ts.original_generator.max_power *
          sample_renewable_factor ts.original_generator.generator_type hour ≤
        ts.original_generator.max_power) := by
  obtain ⟨gen, -, rfl⟩ := lookup_sample_gen_ts net gen_id ts hts
  have horig : (create_sample_gen_ts gen_id gen).original_generator = gen := rfl
  rw [horig] at htype ⊢
  refine ⟨get_available_capacity_sample gen_id gen hour hh htype, ?_⟩
  intro hmp
  have hle := sample_renewable_factor_le_one gen.generator_type hour hh
  calc gen.max_power * sample_renewable_factor gen.generator_type hour
      ≤ gen.max_power * 1 := mul_le_mul_of_nonneg_left hle hmp
    _ = gen.max_power := mul_one _

/-- Witness for C8 amended: the solar generator `solarGen` (`max_power = 50`) in
`sampleNet`, at hour 13: available capacity `50 × 0.9 = 45`, at most 50. -/
theorem renewable_capacity_formula_and_bound_witness :
    (create_sample_gen_ts "S2" solarGen).get_available_capacity 13 =
      .ok ((create_sample_gen_ts "S2" solarGen).original_generator.max_power *
        sample_renewable_factor
          (create_sample_gen_ts "S2" solarGen).original_generator.generator_type 13) ∧
    (0 ≤ (create_sample_gen_ts "S2" solarGen).original_generator.max_power →
      (create_sample_gen_ts "S2" solarGen).original_generator.max_power *
          sample_renewable_factor
            (create_sample_gen_ts "S2" solarGen).original_generator.generator_type 13 ≤
        (create_sample_gen_ts "S2" solarGen).original_generator.max_power) :=
  renewable_capacity_formula_and_bound sampleNet "S2" (create_sample_gen_ts "S2" solarGen)
    (by decide) (by decide) 13 (by norm_num)

/-- C9: in data produced by `create_sample_day_ahead_data`, every non-renewable
(thermal or hydro) generator carries, for each hour 0–23, exactly the three
stored bid segments `[0, 0.3·max_power]` at `marginal_cost`,
`[0.3·max_power, 0.7·max_power]` at `marginal_cost + 20` and
`[0.7·max_power, max_power]` at `marginal_cost + 50`, identical for every hour
and returned as-is by `get_bid_segments`; every wind or solar generator stores an
empty per-hour segment list, and `get_bid_segments` instead returns the single
virtual segment `(0, available capacity at that hour, price 0)`. -/
theorem sample_bid_segments_shape (net : Network) (gen_id : String)
    (ts : GeneratorTimeSeries)
    (hts : dictLookup (create_sample_day_ahead_data net).generator_time_series gen_id =
      some ts)
    (hour : ℕ) (hh : hour < 24) :
    ((ts.original_generator.generator_type = .thermal ∨
        ts.original_generator.generator_type = .hydro) →
      ts.bid_segments.get? hour = some
        [⟨0, ts.original_generator.max_power * (3 / 10), ts.original_generator.marginal_cost⟩,
         ⟨ts.original_generator.max_power * (3 / 10),
          ts.original_generator.max_power * (7 / 10),
          ts.original_generator.marginal_cost + 20⟩,
         ⟨ts.original_generator.max_power * (7 / 10), ts.original_generator.max_power,
          ts.original_generator.marginal_cost + 50⟩] ∧
      ts.get_bid_segments hour = .ok
        [⟨0, ts.original_generator.max_power * (3 / 10), ts.original_generator.marginal_cost⟩,
         ⟨ts.original_generator.max_power * (3 / 10),
          ts.original_generator.max_power * (7 / 10),
          ts.original_generator.marginal_cost + 20⟩,
         ⟨ts.original_generator.max_power * (7 / 10), ts.original_generator.max_power,
          ts.original_generator.marginal_cost + 50⟩]) ∧
    ((ts.original_generator.generator_type = .wind ∨
        ts.original_generator.generator_type = .solar) →
      ts.bid_segments.get? hour = some [] ∧
      ts.get_bid_segments hour = .ok
        [⟨0, ts.original_generator.max_power *
          sample_renewable_factor ts.original_generator.generator_type hour, 0⟩]) := by
  obtain ⟨gen, -, rfl⟩ := lookup_sample_gen_ts net gen_id ts hts
  have horig : (create_sample_gen_ts gen_id gen).original_generator = gen := rfl
  have hsegs : (create_sample_gen_ts gen_id gen).bid_segments = sample_bid_segments gen :=
    rfl
  rw [horig, hsegs]
  constructor
  · intro htype
    have hnotren : ¬ (gen.generator_type = .wind ∨ gen.generator_type = .solar) := by
      rcases htype with h | h <;> rw [h] <;> rintro (h2 | h2) <;> exact
        GeneratorType.noConfusion h2
    have hget := sample_bid_segments_get gen hour hh
    rw [if_neg hnotren] at hget
    refine ⟨hget, ?_⟩
    unfold GeneratorTimeSeries.get_bid_segments
    rw [if_neg (by omega), if_neg (by rw [horig]; exact hnotren), hsegs, hget]
  · intro htype
    have hget := sample_bid_segments_get gen hour hh
    rw [if_pos htype] at hget
    refine ⟨hget, ?_⟩
    unfold GeneratorTimeSeries.get_bid_segments
    rw [if_neg (by omega), if_pos (by rw [horig]; exact htype),
      get_available_capacity_sample gen_id gen hour hh htype]

/-- Witness for C9: the thermal generator `thermalGen` (`max_power = 100`,
`marginal_cost = 40`) in `sampleNet` at hour 5: stored and returned segments are
`[(0, 30) @ 40, (30, 70) @ 60, (70, 100) @ 90]`; and the solar generator
`solarGen` at hour 13 stores no segments and returns the virtual segment
`(0, 45, 0)`. -/
theorem sample_bid_segments_shape_witness :
    ((create_sample_gen_ts "TH1" thermalGen).bid_segments.get? 5 =
        some [⟨0, 30, 40⟩, ⟨30, 70, 60⟩, ⟨70, 100, 90⟩] ∧
      (create_sample_gen_ts "TH1" thermalGen).get_bid_segments 5 =
        .ok [⟨0, 30, 40⟩, ⟨30, 70, 60⟩, ⟨70, 100, 90⟩]) ∧
    ((create_sample_gen_ts "S2" solarGen).bid_segments.get? 13 = some [] ∧
      (create_sample_gen_ts "S2" solarGen).get_bid_segments 13 =
        .ok [⟨0, 45, 0⟩]) := by
  constructor
  · have h := (sample_bid_segments_shape sampleNet "TH1"
      (create_sample_gen_ts "TH1" thermalGen) (by decide) 5 (by norm_num)).1 (by decide)
    exact ⟨h.1.trans (by decide), h.2.trans (by decide)⟩
  · have h := (sample_bid_segments_shape sampleNet "S2"
      (create_sample_gen_ts "S2" solarGen) (by decide) 13 (by norm_num)).2 (by decide)
    exact ⟨h.1, h.2.trans (by decide)⟩

/-- C10: the single-period merit-order engine (`LMPAlgorithm._calculate_simple_lmp`)
and the time-series engine (`LMPAlgorithmWithSegments._calculate_simple_lmp`)
return identical results on every network and bid map (first conjunct): their only
textual difference, the 500 base-price branch for an empty supply curve, is
unreachable because every node with at least one generator yields a non-empty
supply curve (second conjunct). -/
theorem merit_order_engines_extensionally_equal :
    (∀ (net : Network) (bids : BidMap),
      LMPAlgorithm.calculate_simple_lmp net bids =
        LMPAlgorithmWithSegments.calculate_simple_lmp net bids) ∧
    (∀ (gens : List Generator) (bids : BidMap) (td : ℚ),
      gens ≠ [] → LMPAlgorithm.supply_curve gens bids td ≠ []) :=
  ⟨simple_lmp_v1_eq_v2, supply_curve_ne_nil⟩

/-- Witness for C10: the two engines agree on `congNet`, and the supply curve of
a single unsegmented generator is non-empty. -/
theorem merit_order_engines_extensionally_equal_witness :
    LMPAlgorithm.calculate_simple_lmp congNet [] =
      LMPAlgorithmWithSegments.calculate_simple_lmp congNet [] ∧
    LMPAlgorithm.supply_curve [thermalGen] [] 5 ≠ [] :=
  ⟨merit_order_engines_extensionally_equal.1 congNet [],
   merit_order_engines_extensionally_equal.2 [thermalGen] [] 5 (by decide)⟩

end MarketSim
